import Mathlib

/-!
Verification of the Barrier-Certificates car-simulator core
(`testing.py` and `moving_car.py`).

The Python code computes with IEEE floats via numpy; we idealise all
numeric values as real numbers.  Points are pairs of reals, the Euclidean
norm is `Real.sqrt` of the sum of squares, and Python's `float(inf)`
(returned by `get_distance_to_obstacles` on an empty obstacle list and
used to initialise `min_distance_observed`) is modelled by `⊤ : EReal`.
Safety states are the integer constants 0/1/2 exactly as in the source.
-/

namespace BarrierSim

/-- A 2-D coordinate, as in the numpy arrays of the source. -/
abbrev Point := ℝ × ℝ

/-- Euclidean norm of a 2-vector: `np.linalg.norm`. -/
noncomputable def norm2 (p : Point) : ℝ := Real.sqrt (p.1 ^ 2 + p.2 ^ 2)

/-- Dot product of 2-vectors: `np.dot`. -/
def dotp (a b : Point) : ℝ := a.1 * b.1 + a.2 * b.2

/-- Safety-state constant `SAFE = 0` (testing.py line 9). -/
def SAFE : ℕ := 0

/-- Safety-state constant `MILD_UNSAFE = 1` (testing.py line 10). -/
def MILD_UNSAFE : ℕ := 1

/-- Safety-state constant `UNSAFE = 2` (testing.py line 11). -/
def UNSAFE : ℕ := 2

/-! ### The headless car simulator (testing.py, class `HeadlessCarSimulator`) -/

/-- State of a `HeadlessCarSimulator` instance. -/
structure HeadlessCarSimulator where
  start_point : Point
  end_point : Point
  obstacle_positions : List Point
  barrier_distance : ℝ
  speed : ℝ
  current_position : Point
  path : List Point
  current_path_index : ℕ
  progress : ℝ
  has_reached_end : Bool

/-- One correction pass of `ensure_safe_point` for a single obstacle
(testing.py lines 202-208, the body of the `for obstacle in ...` loop). -/
noncomputable def ensure_step (barrier_distance : ℝ) (safe_point obstacle : Point) : Point :=
  if norm2 (safe_point - obstacle) < barrier_distance then
    let direction_away : Point := safe_point - obstacle
    let direction_away :=
      if norm2 direction_away > 0 then (norm2 direction_away)⁻¹ • direction_away
      else direction_away
    obstacle + (barrier_distance * 1.1) • direction_away
  else safe_point

/-- `HeadlessCarSimulator.ensure_safe_point` (testing.py lines 198-210):
push the point away from each obstacle, in input order, whenever it is
closer than the barrier distance. -/
noncomputable def ensure_safe_point (obstacle_positions : List Point)
    (barrier_distance : ℝ) (point : Point) : Point :=
  obstacle_positions.foldl (ensure_step barrier_distance) point

/-- Body of the `for obstacle in self.obstacle_positions` loop of
`calculate_safe_path` (testing.py lines 146-183).  The accumulator is the
pair `(path, current_pos)`.  Note testing.py lines 148-149 compute
`to_obstacle` and `obstacle_dist` but never use them. -/
noncomputable def plan_step (start_point end_point : Point) (obstacle_positions : List Point)
    (barrier_distance : ℝ) (acc : List Point × Point) (obstacle : Point) :
    List Point × Point :=
  let main_direction0 : Point := end_point - start_point
  let main_direction :=
    if norm2 main_direction0 > 0 then (norm2 main_direction0)⁻¹ • main_direction0
    else main_direction0
  let perp : Point := (-main_direction.2, main_direction.1)
  let side1 := obstacle + (barrier_distance * 1.5) • perp
  let side2 := obstacle - (barrier_distance * 1.5) • perp
  let dist1 := norm2 (end_point - side1)
  let dist2 := norm2 (end_point - side2)
  let best_side := if dist1 < dist2 then side1 else side2
  let safe_distance := barrier_distance * 1.2
  let approach_point :=
    obstacle - safe_distance • main_direction +
      (Real.sign (dotp perp (best_side - obstacle)) * safe_distance) • perp
  let approach_point := ensure_safe_point obstacle_positions barrier_distance approach_point
  let avoidance_point := ensure_safe_point obstacle_positions barrier_distance best_side
  let acc :=
    if norm2 (approach_point - acc.2) > 0.1 then (acc.1 ++ [approach_point], approach_point)
    else acc
  let acc :=
    if norm2 (avoidance_point - acc.2) > 0.1 then (acc.1 ++ [avoidance_point], avoidance_point)
    else acc
  acc

/-- One step of the duplicate-removal pass (testing.py lines 191-194). -/
noncomputable def dedup_step (clean : List Point) (point : Point) : List Point :=
  match clean.getLast? with
  | none => clean ++ [point]
  | some last => if norm2 (point - last) > 0.1 then clean ++ [point] else clean

/-- The duplicate-removal pass of `calculate_safe_path`
(testing.py lines 190-194). -/
noncomputable def dedup_path (path : List Point) : List Point :=
  path.foldl dedup_step []

/-- `HeadlessCarSimulator.calculate_safe_path` (testing.py lines 137-196). -/
noncomputable def calculate_safe_path (start_point end_point : Point)
    (obstacle_positions : List Point) (barrier_distance : ℝ) : List Point :=
  match obstacle_positions with
  | [] => [start_point, end_point]
  | _ =>
    let acc := obstacle_positions.foldl
      (plan_step start_point end_point obstacle_positions barrier_distance)
      ([start_point], start_point)
    let final_point := ensure_safe_point obstacle_positions barrier_distance end_point
    let path :=
      if norm2 (final_point - acc.2) > 0.1 then acc.1 ++ [final_point] else acc.1
    dedup_path path

/-- `HeadlessCarSimulator.__init__` (testing.py lines 121-135). -/
noncomputable def mkSimulator (start_point end_point : Point)
    (obstacle_positions : List Point) (barrier_distance speed : ℝ) :
    HeadlessCarSimulator :=
  { start_point := start_point
    end_point := end_point
    obstacle_positions := obstacle_positions
    barrier_distance := barrier_distance
    speed := speed
    current_position := start_point
    path := calculate_safe_path start_point end_point obstacle_positions barrier_distance
    current_path_index := 0
    progress := 0
    has_reached_end := false }

/-- `HeadlessCarSimulator.step` (testing.py lines 212-232).  Returns the
updated state together with the Python return value
(`not self.has_reached_end`; `false` means the simulation finished). -/
noncomputable def step (car : HeadlessCarSimulator) : HeadlessCarSimulator × Bool :=
  if car.has_reached_end then (car, false)
  else
    let car :=
      if car.current_path_index < car.path.length - 1 then
        let segment_start := car.path.getD car.current_path_index 0
        let segment_end := car.path.getD (car.current_path_index + 1) 0
        let progress := car.progress + car.speed
        let car :=
          if progress ≥ 1.0 then
            let idx := car.current_path_index + 1
            { car with progress := 0.0, current_path_index := idx,
                       has_reached_end := decide (idx ≥ car.path.length - 1) }
          else { car with progress := progress }
        if car.has_reached_end = false then
          { car with current_position :=
              segment_start + car.progress • (segment_end - segment_start) }
        else car
      else car
    (car, !car.has_reached_end)

/-- `HeadlessCarSimulator.get_distance_to_obstacles` (testing.py lines
234-241): minimum distance from the current position to any obstacle,
`float(inf)` (here `⊤ : EReal`) when there are no obstacles. -/
noncomputable def get_distance_to_obstacles (car : HeadlessCarSimulator) : EReal :=
  match car.obstacle_positions with
  | [] => ⊤
  | o :: rest =>
    ((((rest.map fun obstacle => norm2 (car.current_position - obstacle))).foldl
        min (norm2 (car.current_position - o)) : ℝ) : EReal)

/-- `HeadlessCarSimulator.get_safety_state` (testing.py lines 243-255). -/
noncomputable def get_safety_state (car : HeadlessCarSimulator) : ℕ :=
  let distance := get_distance_to_obstacles car
  let obstacle_radius : ℝ := 0.5
  if distance < (obstacle_radius : EReal) then UNSAFE
  else if distance < (car.barrier_distance : EReal) then MILD_UNSAFE
  else SAFE

/-! ### Test results (testing.py, class `TestResult`) -/

/-- `TestResult` (testing.py lines 13-24). -/
structure TestResult where
  test_id : ℕ
  barrier_distance : ℝ
  total_frames : ℕ
  safe_frames : ℕ
  mild_unsafe_frames : ℕ
  unsafe_frames : ℕ
  min_distance_observed : EReal
  description : String

/-- `TestResult.safety_status` (testing.py lines 26-34): worst state
observed wins. -/
def safety_status (r : TestResult) : ℕ :=
  if r.unsafe_frames > 0 then UNSAFE
  else if r.mild_unsafe_frames > 0 then MILD_UNSAFE
  else SAFE

/-- Output of the simulation loop of `run_single_test`: the frame count,
the three per-state counters, the minimum distance observed, and the final
simulator state. -/
structure SimOut where
  frames : ℕ
  safe_frames : ℕ
  mild_unsafe_frames : ℕ
  unsafe_frames : ℕ
  min_distance_observed : EReal
  car : HeadlessCarSimulator

/-- The `while car.step() and frame_count < 1000` loop of
`run_single_test` (testing.py lines 345-368).  Python evaluates
`car.step()` first (mutating the car) and only then checks the frame cap,
so the returned car state has always been stepped once more than the
number of loop-body executions. -/
noncomputable def sim_loop (car : HeadlessCarSimulator) (frame_count : ℕ)
    (safe_frames mild_unsafe_frames unsafe_frames : ℕ)
    (min_distance_observed : EReal) : SimOut :=
  let s := step car
  if h : s.2 = true ∧ frame_count < 1000 then
    let distance_to_obstacle := get_distance_to_obstacles s.1
    let min_distance_observed := min min_distance_observed distance_to_obstacle
    let safety_state := get_safety_state s.1
    if safety_state = SAFE then
      sim_loop s.1 (frame_count + 1) (safe_frames + 1) mild_unsafe_frames
        unsafe_frames min_distance_observed
    else if safety_state = MILD_UNSAFE then
      sim_loop s.1 (frame_count + 1) safe_frames (mild_unsafe_frames + 1)
        unsafe_frames min_distance_observed
    else
      sim_loop s.1 (frame_count + 1) safe_frames mild_unsafe_frames
        (unsafe_frames + 1) min_distance_observed
  else
    { frames := frame_count
      safe_frames := safe_frames
      mild_unsafe_frames := mild_unsafe_frames
      unsafe_frames := unsafe_frames
      min_distance_observed := min_distance_observed
      car := s.1 }
termination_by 1000 - frame_count
decreasing_by all_goals omega

/-- `run_single_test` (testing.py lines 333-379). -/
noncomputable def run_single_test (test_id : ℕ) (start_point end_point : Point)
    (obstacle_positions : List Point) (barrier_distance speed : ℝ)
    (description : String) : TestResult :=
  let car := mkSimulator start_point end_point obstacle_positions barrier_distance speed
  let out := sim_loop car 0 0 0 0 ⊤
  { test_id := test_id
    barrier_distance := barrier_distance
    total_frames := out.frames
    safe_frames := out.safe_frames
    mild_unsafe_frames := out.mild_unsafe_frames
    unsafe_frames := out.unsafe_frames
    min_distance_observed := out.min_distance_observed
    description := description }

/-! ### The batch runner (testing.py, `run_tests_from_csv`) -/

/-- A raw CSV field: `some q` for a string `float` can parse, `none` for a
non-numeric string (on which Python `float(...)` raises `ValueError`). -/
abbrev RawField := Option ℝ

/-- A row of the scenario CSV as handed to the loop body of
`run_tests_from_csv`.  `speed = none` models a missing `speed` column
(defaulted via `test.get(speed, 0.02)`); `description = none` models a
missing description (defaulted to `No description`). -/
structure TestRow where
  start_x : RawField
  start_y : RawField
  end_x : RawField
  end_y : RawField
  obstacle_x : RawField
  obstacle_y : RawField
  barrier_distance : RawField
  speed : Option RawField
  description : Option String

/-- A fully parsed scenario. -/
structure Scenario where
  start_point : Point
  end_point : Point
  obstacle : Point
  barrier_distance : ℝ
  speed : ℝ
  description : String

/-- Python `float(field)`: succeeds on a numeric field, raises
(`.error`) otherwise. -/
def parseFloat (f : RawField) : Except Unit ℝ :=
  match f with
  | some q => .ok q
  | none => .error ()

/-- The parameter parsing of one row (testing.py lines 276-286), in the
order the `float(...)` calls appear in the source. -/
def parseRow (t : TestRow) : Except Unit Scenario := do
  let start_x ← parseFloat t.start_x
  let start_y ← parseFloat t.start_y
  let end_x ← parseFloat t.end_x
  let end_y ← parseFloat t.end_y
  let obstacle_x ← parseFloat t.obstacle_x
  let obstacle_y ← parseFloat t.obstacle_y
  let barrier_distance ← parseFloat t.barrier_distance
  let speed ← match t.speed with
    | none => Except.ok 0.02
    | some f => parseFloat f
  pure { start_point := (start_x, start_y)
         end_point := (end_x, end_y)
         obstacle := (obstacle_x, obstacle_y)
         barrier_distance := barrier_distance
         speed := speed
         description := t.description.getD "No description" }

/-- The `for i, test in enumerate(tests)` loop of `run_tests_from_csv`
(testing.py lines 272-311).  The whole loop runs inside one
`try`/`except`, so the first parse failure escapes the loop and ends the
batch: the function returns the results collected so far together with
the surfaced error. -/
noncomputable def runBatchAux (test_id : ℕ) (acc : List TestResult) :
    List TestRow → List TestResult × Option Unit
  | [] => (acc, none)
  | row :: rest =>
    match parseRow row with
    | .error e => (acc, some e)
    | .ok sc =>
      runBatchAux (test_id + 1)
        (acc ++ [run_single_test test_id sc.start_point sc.end_point [sc.obstacle]
          sc.barrier_distance sc.speed sc.description]) rest

/-- `run_tests_from_csv` (testing.py lines 257-331), restricted to its
computational content: run the scenarios in order with test ids 1, 2, …;
on the first malformed row, surface the error and abort the batch. -/
noncomputable def run_tests_from_csv (rows : List TestRow) :
    List TestResult × Option Unit :=
  runBatchAux 1 [] rows

/-! ### The aggregator (testing.py, `generate_test_summary`) -/

/-- Python division `a / b`: raises `ZeroDivisionError` when `b = 0`. -/
noncomputable def checkedDiv (a b : ℝ) : Except Unit ℝ :=
  if b = 0 then .error () else .ok (a / b)

/-- One step of grouping results by description, preserving the insertion
order of Python's `defaultdict(list)` over an insertion-ordered dict. -/
def insert_grouped (r : TestResult) :
    List (String × List TestResult) → List (String × List TestResult)
  | [] => [(r.description, [r])]
  | (k, g) :: rest =>
    if k = r.description then (k, g ++ [r]) :: rest
    else (k, g) :: insert_grouped r rest

/-- The `grouped_results` dictionary of `generate_test_summary`
(testing.py lines 387-392). -/
def group_by_description (test_results : List TestResult) :
    List (String × List TestResult) :=
  test_results.foldl (fun acc r => insert_grouped r acc) []

/-- Python `min(x :: xs, key=key)`: fold that replaces the current best
only on strictly smaller key, so the first minimiser wins. -/
def pyMinKey {α : Type} {κ : Type} [LinearOrder κ] (key : α → κ) (x : α)
    (xs : List α) : α :=
  xs.foldl (fun best cur => if key cur < key best then cur else best) x

/-- The optimal-barrier information printed for one group
(testing.py lines 406-414): either the barrier distance of the cheapest
SAFE test, or — when no test in the group is SAFE — the barrier distance
and unsafe-frame count of the test with fewest unsafe frames. -/
inductive OptimalReport where
  | optimal (barrier_distance : ℝ)
  | fallbackBest (barrier_distance : ℝ) (unsafe_frames : ℕ)

/-- The barrier distance printed by either branch. -/
def OptimalReport.barrier : OptimalReport → ℝ
  | .optimal b => b
  | .fallbackBest b _ => b

/-- The optimal-barrier computation for one (nonempty) group
(testing.py lines 406-414). -/
noncomputable def group_optimal : List TestResult → Option OptimalReport
  | [] => none
  | x :: xs =>
    let results := x :: xs
    let safe_tests := results.filter fun r => safety_status r = SAFE
    match safe_tests with
    | [] =>
      let best_test := pyMinKey (fun r => r.unsafe_frames) x xs
      some (.fallbackBest best_test.barrier_distance best_test.unsafe_frames)
    | s :: ss =>
      some (.optimal (pyMinKey (fun r => r.barrier_distance) s ss).barrier_distance)

/-- The per-group block printed by `generate_test_summary`
(testing.py lines 394-414). -/
structure GroupReport where
  description : String
  safe_count : ℕ
  mild_unsafe_count : ℕ
  unsafe_count : ℕ
  total_count : ℕ
  safe_pct : ℝ
  mild_unsafe_pct : ℝ
  unsafe_pct : ℝ
  optimal : Option OptimalReport

/-- The overall-statistics block of `generate_test_summary`
(testing.py lines 416-432). -/
structure OverallReport where
  total_tests : ℕ
  total_safe : ℕ
  total_mild_unsafe_count : ℕ
  total_unsafe_count : ℕ
  safe_pct : ℝ
  mild_unsafe_pct : ℝ
  unsafe_pct : ℝ
  overall_optimal : Option ℝ

/-- The per-group body of `generate_test_summary` (testing.py lines
394-414), with Python's division modelled as `checkedDiv`. -/
noncomputable def summarize_group (description : String)
    (results : List TestResult) : Except Unit GroupReport := do
  let safe_count := (results.filter fun r => safety_status r = SAFE).length
  let mild_unsafe_count := (results.filter fun r => safety_status r = MILD_UNSAFE).length
  let unsafe_count := (results.filter fun r => safety_status r = UNSAFE).length
  let total_count := results.length
  let safe_pct ← checkedDiv (safe_count : ℝ) (total_count : ℝ)
  let mild_unsafe_pct ← checkedDiv (mild_unsafe_count : ℝ) (total_count : ℝ)
  let unsafe_pct ← checkedDiv (unsafe_count : ℝ) (total_count : ℝ)
  pure { description := description
         safe_count := safe_count
         mild_unsafe_count := mild_unsafe_count
         unsafe_count := unsafe_count
         total_count := total_count
         safe_pct := safe_pct * 100
         mild_unsafe_pct := mild_unsafe_pct * 100
         unsafe_pct := unsafe_pct * 100
         optimal := group_optimal results }

/-- `generate_test_summary` (testing.py lines 381-432).  The function only
prints; we model the values it computes, with each Python division made
explicit so that `ZeroDivisionError` shows up as `.error`. -/
noncomputable def generate_test_summary (test_results : List TestResult) :
    Except Unit (List GroupReport × OverallReport) := do
  let grouped_results := group_by_description test_results
  let groupReports ← grouped_results.mapM fun g => summarize_group g.1 g.2
  let total_safe := (test_results.filter fun r => safety_status r = SAFE).length
  let total_mild_unsafe_count :=
    (test_results.filter fun r => safety_status r = MILD_UNSAFE).length
  let total_unsafe_count := (test_results.filter fun r => safety_status r = UNSAFE).length
  let total_tests := test_results.length
  let safe_pct ← checkedDiv (total_safe : ℝ) (total_tests : ℝ)
  let mild_unsafe_pct ← checkedDiv (total_mild_unsafe_count : ℝ) (total_tests : ℝ)
  let unsafe_pct ← checkedDiv (total_unsafe_count : ℝ) (total_tests : ℝ)
  let overall_optimal :=
    match test_results.filter fun r => safety_status r = SAFE with
    | [] => none
    | s :: ss => some (pyMinKey (fun r => r.barrier_distance) s ss).barrier_distance
  pure (groupReports,
    { total_tests := total_tests
      total_safe := total_safe
      total_mild_unsafe_count := total_mild_unsafe_count
      total_unsafe_count := total_unsafe_count
      safe_pct := safe_pct * 100
      mild_unsafe_pct := mild_unsafe_pct * 100
      unsafe_pct := unsafe_pct * 100
      overall_optimal := overall_optimal })

/-! ### Spec-side definitions for the aggregation claim

These two definitions follow the wording of the specification
(§4.4: "the minimum barrier_distance among group members whose status is
SAFE; if none are SAFE, fall back to the member with the fewest UNSAFE
frames (ties broken by input order — first encountered wins)"), to be
compared with the code-side `group_optimal`. -/

/-- Minimum of a nonempty list of reals (spec side). -/
noncomputable def list_min (x : ℝ) (xs : List ℝ) : ℝ := xs.foldl min x

/-- Minimum of a nonempty list of naturals (spec side). -/
def list_min_nat (x : ℕ) (xs : List ℕ) : ℕ := xs.foldl min x

/-- The optimal barrier distance of a group, as worded by the spec. -/
noncomputable def spec_optimal_barrier : List TestResult → Option ℝ
  | [] => none
  | x :: xs =>
    let members := x :: xs
    let safe_members := members.filter fun r => safety_status r = SAFE
    match safe_members with
    | [] =>
      let fewest := list_min_nat x.unsafe_frames (xs.map fun r => r.unsafe_frames)
      (members.find? fun r => r.unsafe_frames = fewest).map fun r => r.barrier_distance
    | s :: ss =>
      some (list_min s.barrier_distance (ss.map fun r => r.barrier_distance))

/-! ### The interactive barrier-distance clamp (moving_car.py) -/

/-- The numeric core of `get_barrier_distance` (moving_car.py lines
376-383): the interactively entered barrier distance is clamped to the
documented minimum of 0.5.  This clamp exists only on the interactive
path; `run_tests_from_csv` performs no such substitution. -/
noncomputable def get_barrier_distance (barrier_dist : ℝ) : ℝ :=
  max 0.5 barrier_dist

/-! ### Division-checked variants of the path planner

Same computations as `ensure_safe_point`/`calculate_safe_path`, with every
division made explicit as a fallible operation, to express that the
source's `> 0` guards prevent any division by a zero norm. -/

/-- Division of a vector by a scalar, raising on a zero divisor. -/
noncomputable def checkedDivVec (v : Point) (n : ℝ) : Except Unit Point :=
  if n = 0 then .error () else .ok (n⁻¹ • v)

/-- `ensure_step` with checked division. -/
noncomputable def ensure_stepE (barrier_distance : ℝ) (safe_point obstacle : Point) :
    Except Unit Point :=
  if norm2 (safe_point - obstacle) < barrier_distance then do
    let direction_away : Point := safe_point - obstacle
    let direction_away ←
      if norm2 direction_away > 0 then checkedDivVec direction_away (norm2 direction_away)
      else pure direction_away
    pure (obstacle + (barrier_distance * 1.1) • direction_away)
  else pure safe_point

/-- `ensure_safe_point` with checked division. -/
noncomputable def ensure_safe_pointE (obstacle_positions : List Point)
    (barrier_distance : ℝ) (point : Point) : Except Unit Point :=
  obstacle_positions.foldlM (fun p o => ensure_stepE barrier_distance p o) point

/-- `plan_step` with checked division. -/
noncomputable def plan_stepE (start_point end_point : Point)
    (obstacle_positions : List Point) (barrier_distance : ℝ)
    (acc : List Point × Point) (obstacle : Point) :
    Except Unit (List Point × Point) := do
  let main_direction0 : Point := end_point - start_point
  let main_direction ←
    if norm2 main_direction0 > 0 then checkedDivVec main_direction0 (norm2 main_direction0)
    else pure main_direction0
  let perp : Point := (-main_direction.2, main_direction.1)
  let side1 := obstacle + (barrier_distance * 1.5) • perp
  let side2 := obstacle - (barrier_distance * 1.5) • perp
  let dist1 := norm2 (end_point - side1)
  let dist2 := norm2 (end_point - side2)
  let best_side := if dist1 < dist2 then side1 else side2
  let safe_distance := barrier_distance * 1.2
  let approach_point :=
    obstacle - safe_distance • main_direction +
      (Real.sign (dotp perp (best_side - obstacle)) * safe_distance) • perp
  let approach_point ← ensure_safe_pointE obstacle_positions barrier_distance approach_point
  let avoidance_point ← ensure_safe_pointE obstacle_positions barrier_distance best_side
  let acc :=
    if norm2 (approach_point - acc.2) > 0.1 then (acc.1 ++ [approach_point], approach_point)
    else acc
  let acc :=
    if norm2 (avoidance_point - acc.2) > 0.1 then (acc.1 ++ [avoidance_point], avoidance_point)
    else acc
  pure acc

/-- `calculate_safe_path` with checked division. -/
noncomputable def calculate_safe_pathE (start_point end_point : Point)
    (obstacle_positions : List Point) (barrier_distance : ℝ) :
    Except Unit (List Point) :=
  match obstacle_positions with
  | [] => pure [start_point, end_point]
  | _ => do
    let acc ← obstacle_positions.foldlM
      (plan_stepE start_point end_point obstacle_positions barrier_distance)
      ([start_point], start_point)
    let final_point ← ensure_safe_pointE obstacle_positions barrier_distance end_point
    let path :=
      if norm2 (final_point - acc.2) > 0.1 then acc.1 ++ [final_point] else acc.1
    pure (dedup_path path)

/-! ### Concrete states and rows used in the theorems below -/

/-- A MOVING state on the 3-point path `[(0,0),(1,0),(2,0)]` about to
finish its first segment (progress 0.5, speed 0.6). -/
noncomputable def carSegXover : HeadlessCarSimulator :=
  { start_point := (0, 0)
    end_point := (2, 0)
    obstacle_positions := []
    barrier_distance := 1
    speed := 0.6
    current_position := (0.5, 0)
    path := [(0, 0), (1, 0), (2, 0)]
    current_path_index := 0
    progress := 0.5
    has_reached_end := false }

/-- A fresh MOVING state on the 2-point path `[(0,0),(1,0)]` with speed
0.6. -/
noncomputable def carShort : HeadlessCarSimulator :=
  { start_point := (0, 0)
    end_point := (1, 0)
    obstacle_positions := []
    barrier_distance := 1
    speed := 0.6
    current_position := (0, 0)
    path := [(0, 0), (1, 0)]
    current_path_index := 0
    progress := 0
    has_reached_end := false }

/-- The state `carShort` reaches after one step: 60% along its only
segment. -/
noncomputable def carShortMid : HeadlessCarSimulator :=
  { carShort with current_position := (0.6, 0), progress := 0.6 }

/-- A state that has already reached the end of its path. -/
noncomputable def carDone : HeadlessCarSimulator :=
  { carShort with has_reached_end := true }

/-- A state at distance 0.3 from the only obstacle, with barrier distance
0.2 (< 0.5, the physical radius). -/
noncomputable def carNear : HeadlessCarSimulator :=
  { start_point := (0.3, 0)
    end_point := (2, 0)
    obstacle_positions := [(0, 0)]
    barrier_distance := 0.2
    speed := 0.02
    current_position := (0.3, 0)
    path := [(0.3, 0), (2, 0)]
    current_path_index := 0
    progress := 0
    has_reached_end := false }

/-- A state with an empty obstacle list. -/
noncomputable def carNoObs : HeadlessCarSimulator :=
  { carNear with obstacle_positions := [] }

/-- A scenario row whose `barrier_distance` field is non-numeric. -/
noncomputable def badRow : TestRow :=
  { start_x := some 0
    start_y := some 0
    end_x := some 1
    end_y := some 0
    obstacle_x := some 5
    obstacle_y := some 5
    barrier_distance := none
    speed := none
    description := some "malformed barrier" }

/-- A fully numeric scenario row. -/
noncomputable def goodRow : TestRow :=
  { start_x := some 0
    start_y := some 0
    end_x := some 1
    end_y := some 0
    obstacle_x := some 5
    obstacle_y := some 5
    barrier_distance := some 1
    speed := some (some 0.5)
    description := some "valid scenario" }

/-- A SAFE test result with barrier distance 1.0. -/
noncomputable def resSafeB1 : TestResult :=
  { test_id := 1
    barrier_distance := 1.0
    total_frames := 100
    safe_frames := 100
    mild_unsafe_frames := 0
    unsafe_frames := 0
    min_distance_observed := ⊤
    description := "group" }

/-- A SAFE test result with barrier distance 2.0. -/
noncomputable def resSafeB2 : TestResult :=
  { resSafeB1 with test_id := 2, barrier_distance := 2.0 }

/-- An UNSAFE test result with barrier distance 0.5. -/
noncomputable def resUnsafeB05 : TestResult :=
  { resSafeB1 with
    test_id := 3
    barrier_distance := 0.5
    safe_frames := 95
    unsafe_frames := 5 }

end BarrierSim

namespace BarrierSim

/-! ### Elementary facts about `norm2` -/

theorem norm2_nonneg (p : Point) : 0 ≤ norm2 p := Real.sqrt_nonneg _

theorem norm2_lt_iff {c : ℝ} (hc : 0 < c) (p : Point) :
    norm2 p < c ↔ p.1 ^ 2 + p.2 ^ 2 < c ^ 2 := Real.sqrt_lt' hc

theorem norm2_not_lt_of_nonpos {c : ℝ} (hc : c ≤ 0) (p : Point) :
    norm2 p < c ↔ False :=
  iff_false_intro (not_lt.mpr (le_trans hc (norm2_nonneg p)))

theorem lt_norm2_iff {c : ℝ} (hc : 0 ≤ c) (p : Point) :
    c < norm2 p ↔ c ^ 2 < p.1 ^ 2 + p.2 ^ 2 := Real.lt_sqrt hc

theorem le_norm2_iff {c : ℝ} (hc : 0 ≤ c) (p : Point) :
    c ≤ norm2 p ↔ c ^ 2 ≤ p.1 ^ 2 + p.2 ^ 2 :=
  Real.le_sqrt hc (by positivity)

theorem norm2_lt_norm2 (p q : Point) :
    norm2 p < norm2 q ↔ p.1 ^ 2 + p.2 ^ 2 < q.1 ^ 2 + q.2 ^ 2 :=
  Real.sqrt_lt_sqrt_iff (by positivity)

theorem norm2_eq {c : ℝ} (hc : 0 ≤ c) (p : Point)
    (h : p.1 ^ 2 + p.2 ^ 2 = c ^ 2) : norm2 p = c := by
  rw [norm2, h, Real.sqrt_sq hc]

theorem norm2_pos_iff (p : Point) : 0 < norm2 p ↔ p ≠ 0 := by
  rw [norm2, Real.sqrt_pos]
  constructor
  · intro h hp
    rw [hp] at h
    norm_num at h
  · intro hp
    rcases lt_or_eq_of_le (add_nonneg (sq_nonneg p.1) (sq_nonneg p.2)) with h | h
    · exact h
    · exfalso
      apply hp
      have h1 : p.1 ^ 2 = 0 := by nlinarith [sq_nonneg p.1, sq_nonneg p.2]
      have h2 : p.2 ^ 2 = 0 := by nlinarith [sq_nonneg p.1, sq_nonneg p.2]
      exact Prod.ext (sq_eq_zero_iff.mp h1) (sq_eq_zero_iff.mp h2)

theorem norm2_smul (c : ℝ) (p : Point) : norm2 (c • p) = |c| * norm2 p := by
  have : (c • p).1 ^ 2 + (c • p).2 ^ 2 = c ^ 2 * (p.1 ^ 2 + p.2 ^ 2) := by
    simp [Prod.smul_fst, Prod.smul_snd, smul_eq_mul]
    ring
  rw [norm2, this, Real.sqrt_mul (sq_nonneg c), Real.sqrt_sq_eq_abs, norm2]

theorem norm2_xaxis (x : ℝ) (hx : 0 ≤ x) : norm2 (x, 0) = x :=
  norm2_eq hx _ (by ring)

theorem norm2_xaxis_neg (x : ℝ) (hx : 0 ≤ x) : norm2 (-x, 0) = x :=
  norm2_eq hx _ (by ring)

/-! ### Structure of the planner output -/

/-- One safe-point correction step lands at distance at least the barrier
distance from the obstacle, or returns the obstacle itself (the
coincident degenerate case). -/
theorem ensure_step_safe (b : ℝ) (q o : Point) :
    b ≤ norm2 (ensure_step b q o - o) ∨ ensure_step b q o = o := by
  by_cases hlt : norm2 (q - o) < b
  · by_cases hpos : norm2 (q - o) > 0
    · left
      simp only [ensure_step, if_pos hlt, if_pos hpos, add_sub_cancel_left]
      rw [norm2_smul, norm2_smul, abs_of_pos (inv_pos.mpr hpos),
        inv_mul_cancel₀ hpos.ne', mul_one]
      rcases le_or_lt b 0 with hb | hb
      · exact le_trans hb (abs_nonneg _)
      · rw [abs_of_pos (by nlinarith)]
        nlinarith
    · right
      have hzero : q - o = 0 := by
        by_contra hne
        exact hpos ((norm2_pos_iff (q - o)).mpr hne)
      have h00 : norm2 ((0 : ℝ × ℝ)) = 0 := by
        simp [norm2]
      rw [sub_eq_zero] at hzero
      subst hzero
      simp only [sub_self, h00] at hlt
      simp [ensure_step, sub_self, h00, hlt]
  · left
    simp only [ensure_step, if_neg hlt]
    exact not_lt.mp hlt

/-- `dedup_step` on a nonempty accumulator preserves the head and appends
at most the new point. -/
theorem dedup_step_cons (a : Point) (acc : List Point) (x : Point) :
    ∃ t, dedup_step (a :: acc) x = a :: t ∧ (t = acc ∨ t = acc ++ [x]) := by
  cases hgl : (a :: acc).getLast? with
  | none => simp at hgl
  | some last =>
    simp only [dedup_step, hgl]
    split_ifs with h
    · exact ⟨acc ++ [x], rfl, Or.inr rfl⟩
    · exact ⟨acc, rfl, Or.inl rfl⟩

/-- Folding `dedup_step` from a nonempty accumulator preserves the head,
and every other element of the result comes from the accumulator's tail or
from the input list. -/
theorem dedup_foldl_cons :
    ∀ (L acc : List Point) (a : Point),
      ∃ t, List.foldl dedup_step (a :: acc) L = a :: t ∧
        ∀ p ∈ t, p ∈ acc ∨ p ∈ L := by
  intro L
  induction L with
  | nil => intro acc a; exact ⟨acc, rfl, fun p hp => Or.inl hp⟩
  | cons x L ih =>
    intro acc a
    obtain ⟨t1, h1, ht1⟩ := dedup_step_cons a acc x
    obtain ⟨t2, h2, ht2⟩ := ih t1 a
    refine ⟨t2, by rw [List.foldl_cons, h1, h2], fun p hp => ?_⟩
    rcases ht2 p hp with hp1 | hp1
    · rcases ht1 with rfl | rfl
      · exact Or.inl hp1
      · rcases List.mem_append.mp hp1 with hp2 | hp2
        · exact Or.inl hp2
        · simp only [List.mem_singleton] at hp2
          exact Or.inr (by simp [hp2])
    · exact Or.inr (List.mem_cons_of_mem x hp1)

/-- `dedup_step` from the empty accumulator starts the clean list. -/
theorem dedup_step_nil (x : Point) : dedup_step [] x = [x] := rfl

/-- `plan_step` preserves the head of the accumulated path and appends
only safe-corrected points. -/
theorem plan_step_cons (s e : Point) (obs : List Point) (b : ℝ)
    (acc : List Point × Point) (o a : Point) (t : List Point)
    (h : acc.1 = a :: t) :
    ∃ t2, (plan_step s e obs b acc o).1 = a :: t2 ∧
      ∀ p ∈ t2, p ∈ t ∨ ∃ q, p = ensure_safe_point obs b q := by
  simp only [plan_step]
  split_ifs <;> rw [h]
  all_goals refine ⟨_, rfl, ?_⟩
  all_goals intro p hp
  all_goals try simp only [List.append_eq, List.cons_append, List.mem_append,
    List.mem_singleton] at hp
  all_goals first
    | exact Or.inl hp
    | exact Or.inr ⟨_, hp⟩
    | (rcases hp with hp | hp <;>
        first
          | exact Or.inl hp
          | exact Or.inr ⟨_, hp⟩
          | (rcases hp with hp | hp <;>
              first
                | exact Or.inl hp
                | exact Or.inr ⟨_, hp⟩))

/-- Folding `plan_step` preserves the head of the accumulated path and
appends only safe-corrected points. -/
theorem plan_fold_cons (s e : Point) (obs : List Point) (b : ℝ) :
    ∀ (l : List Point) (acc : List Point × Point) (a : Point) (t : List Point),
      acc.1 = a :: t →
      ∃ t2, (List.foldl (plan_step s e obs b) acc l).1 = a :: t2 ∧
        ∀ p ∈ t2, p ∈ t ∨ ∃ q, p = ensure_safe_point obs b q := by
  intro l
  induction l with
  | nil => intro acc a t h; exact ⟨t, h, fun p hp => Or.inl hp⟩
  | cons o rest ih =>
    intro acc a t h
    obtain ⟨t1, h1, hm1⟩ := plan_step_cons s e obs b acc o a t h
    obtain ⟨t2, h2, hm2⟩ := ih (plan_step s e obs b acc o) a t1 h1
    refine ⟨t2, by rw [List.foldl_cons, h2], fun p hp => ?_⟩
    rcases hm2 p hp with hp1 | hp1
    · exact hm1 p hp1
    · exact Or.inr hp1

/-- The path planned around a nonempty obstacle list starts at the start
point, and every later waypoint is an output of `ensure_safe_point`. -/
theorem calc_path_cons (s e o : Point) (rest : List Point) (b : ℝ) :
    ∃ t, calculate_safe_path s e (o :: rest) b = s :: t ∧
      ∀ p ∈ t, ∃ q, p = ensure_safe_point (o :: rest) b q := by
  obtain ⟨t1, h1, hm1⟩ :=
    plan_fold_cons s e (o :: rest) b (o :: rest) ([s], s) s [] rfl
  have hm1e : ∀ p ∈ t1, ∃ q, p = ensure_safe_point (o :: rest) b q := by
    intro p hp
    rcases hm1 p hp with hp1 | hp1
    · exact absurd hp1 (List.not_mem_nil p)
    · exact hp1
  simp only [calculate_safe_path]
  split_ifs with hfin
  · rw [h1, dedup_path, List.cons_append, List.foldl_cons, dedup_step_nil]
    obtain ⟨t2, h2, hm2⟩ := dedup_foldl_cons (t1 ++
      [ensure_safe_point (o :: rest) b e]) [] s
    refine ⟨t2, h2, fun p hp => ?_⟩
    rcases hm2 p hp with hp1 | hp1
    · exact absurd hp1 (List.not_mem_nil p)
    · rcases List.mem_append.mp hp1 with hp2 | hp2
      · exact hm1e p hp2
      · simp only [List.mem_singleton] at hp2
        exact ⟨e, hp2⟩
  · rw [h1, dedup_path, List.foldl_cons, dedup_step_nil]
    obtain ⟨t2, h2, hm2⟩ := dedup_foldl_cons t1 [] s
    refine ⟨t2, h2, fun p hp => ?_⟩
    rcases hm2 p hp with hp1 | hp1
    · exact absurd hp1 (List.not_mem_nil p)
    · exact hm1e p hp1

/-- Every planned path starts with the start point (which is never
safe-corrected). -/
theorem calc_path_head (s e : Point) (obs : List Point) (b : ℝ) :
    (calculate_safe_path s e obs b).head? = some s := by
  cases obs with
  | nil => rfl
  | cons o rest =>
    obtain ⟨t, ht, _⟩ := calc_path_cons s e o rest b
    rw [ht]
    rfl

/-! ### The division guards of the planner -/

theorem except_bind_ok {α β : Type} (a : α) (f : α → Except Unit β) :
    (Except.ok a : Except Unit α) >>= f = f a := rfl

theorem except_pure_eq {α : Type} (a : α) : (pure a : Except Unit α) = .ok a := rfl

theorem ensure_stepE_ok (b : ℝ) (p o : Point) :
    ensure_stepE b p o = .ok (ensure_step b p o) := by
  by_cases h1 : norm2 (p - o) < b
  · by_cases h2 : norm2 (p - o) > 0
    · simp [ensure_stepE, ensure_step, h1, h2, checkedDivVec, ne_of_gt h2,
        except_bind_ok, except_pure_eq]
    · simp [ensure_stepE, ensure_step, h1, h2, except_bind_ok, except_pure_eq]
  · simp [ensure_stepE, ensure_step, h1, except_pure_eq]

theorem foldlM_ok {α β : Type} (f : β → α → β) (fE : β → α → Except Unit β)
    (hok : ∀ b a, fE b a = .ok (f b a)) :
    ∀ (l : List α) (b : β), l.foldlM fE b = .ok (l.foldl f b) := by
  intro l
  induction l with
  | nil => intro b; rfl
  | cons a l ih =>
    intro b
    rw [List.foldlM_cons, hok, List.foldl_cons]
    exact ih (f b a)

theorem ensure_safe_pointE_ok (obs : List Point) (b : ℝ) (p : Point) :
    ensure_safe_pointE obs b p = .ok (ensure_safe_point obs b p) :=
  foldlM_ok (ensure_step b) (fun q o => ensure_stepE b q o)
    (fun q o => ensure_stepE_ok b q o) obs p

theorem plan_stepE_ok (s e : Point) (obs : List Point) (b : ℝ)
    (acc : List Point × Point) (o : Point) :
    plan_stepE s e obs b acc o = .ok (plan_step s e obs b acc o) := by
  by_cases h : norm2 (e - s) > 0
  · simp only [plan_stepE, plan_step, h, if_true, checkedDivVec,
      ne_of_gt h, if_false, ite_false, ite_true, ensure_safe_pointE_ok,
      except_bind_ok, except_pure_eq]
  · simp only [plan_stepE, plan_step, h, if_false, ite_false, ite_true,
      ensure_safe_pointE_ok, except_bind_ok, except_pure_eq]

/-- The `> 0` guards in the source prevent every division by a zero norm:
the division-checked planner never raises and agrees with the plain one. -/
theorem calculate_safe_pathE_ok (s e : Point) (obs : List Point) (b : ℝ) :
    calculate_safe_pathE s e obs b = .ok (calculate_safe_path s e obs b) := by
  cases obs with
  | nil => rfl
  | cons o rest =>
    simp only [calculate_safe_pathE, calculate_safe_path]
    rw [foldlM_ok (plan_step s e (o :: rest) b) (plan_stepE s e (o :: rest) b)
      (plan_stepE_ok s e (o :: rest) b)]
    simp [ensure_safe_pointE_ok, except_bind_ok, except_pure_eq]

/-! ### Closed-form evaluation of the planner on axis-aligned scenarios -/

/-- `plan_step` for a start at the origin, an end on the positive x-axis
and an obstacle on the x-axis: the side tie-break picks `side2`, and the
approach/avoidance points take the closed forms below. -/
theorem plan_step_axis (L ox b : ℝ) (hL : 0 < L) (obs : List Point)
    (acc : List Point × Point) :
    plan_step (0, 0) (L, 0) obs b acc (ox, 0) =
      (let approach := ensure_safe_point obs b
        (ox - b * 1.2, Real.sign (-(b * 1.5)) * (b * 1.2))
       let avoid := ensure_safe_point obs b (ox, -(b * 1.5))
       let acc1 :=
        if norm2 (approach - acc.2) > 0.1 then (acc.1 ++ [approach], approach)
        else acc
       if norm2 (avoid - acc1.2) > 0.1 then (acc1.1 ++ [avoid], avoid)
       else acc1) := by
  have hn : norm2 ((L, (0 : ℝ)) - ((0 : ℝ), (0 : ℝ))) = L := by
    apply norm2_eq hL.le
    simp [Prod.mk_sub_mk]
  have hLL : L⁻¹ * L = 1 := inv_mul_cancel₀ hL.ne'
  simp only [plan_step, hn, gt_iff_lt, hL, if_true]
  norm_num [Prod.mk_sub_mk, Prod.mk_add_mk, Prod.smul_mk, smul_eq_mul, dotp,
    norm2_lt_norm2, hLL, Prod.ext_iff]

/-- The planned path for start (0,0), end (10,0), obstacle (5,0) and
barrier distance 0.5. -/
theorem path_axis_b05 :
    calculate_safe_path (0, 0) (10, 0) [(5, 0)] 0.5 =
      [(0, 0), (4.4, -0.6), (5, -0.75), (10, 0)] := by
  have hps := plan_step_axis 10 5 0.5 (by norm_num) [(5, 0)] ([(0, 0)], (0, 0))
  simp only [calculate_safe_path, List.foldl_cons, List.foldl_nil]
  rw [hps]
  norm_num [ensure_safe_point, ensure_step, dedup_path, dedup_step, Real.sign,
    norm2_lt_iff, lt_norm2_iff, norm2_not_lt_of_nonpos, norm2_lt_norm2,
    Prod.mk_sub_mk, Prod.mk_add_mk, Prod.smul_mk, smul_eq_mul, dotp, Prod.ext_iff]

/-- The planned path for the same scenario with the unclamped barrier
distance −1: the avoidance geometry flips sign and every waypoint
differs. -/
theorem path_axis_bneg1 :
    calculate_safe_path (0, 0) (10, 0) [(5, 0)] (-1) =
      [(0, 0), (6.2, -1.2), (5, 1.5), (10, 0)] := by
  have hps := plan_step_axis 10 5 (-1) (by norm_num) [(5, 0)] ([(0, 0)], (0, 0))
  simp only [calculate_safe_path, List.foldl_cons, List.foldl_nil]
  rw [hps]
  norm_num [ensure_safe_point, ensure_step, dedup_path, dedup_step, Real.sign,
    norm2_lt_iff, lt_norm2_iff, norm2_not_lt_of_nonpos, norm2_lt_norm2,
    Prod.mk_sub_mk, Prod.mk_add_mk, Prod.smul_mk, smul_eq_mul, dotp, Prod.ext_iff]

/-- First planner iteration of the two-obstacle scenario
start (0,0), end (3,0), obstacles (2,0) and (3.2,0), barrier 1. -/
theorem plan_step_two_obs_first :
    plan_step (0, 0) (3, 0) [(2, 0), (3.2, 0)] 1 ([(0, 0)], (0, 0)) (2, 0) =
      ([(0, 0), (0.8, -1.2), (2, -1.5)], ((2 : ℝ), (-1.5 : ℝ))) := by
  have hps := plan_step_axis 3 2 1 (by norm_num) [(2, 0), (3.2, 0)]
    ([(0, 0)], (0, 0))
  rw [hps]
  norm_num [ensure_safe_point, ensure_step, Real.sign,
    norm2_lt_iff, lt_norm2_iff, norm2_not_lt_of_nonpos, norm2_lt_norm2,
    Prod.mk_sub_mk, Prod.mk_add_mk, Prod.smul_mk, smul_eq_mul, dotp, Prod.ext_iff]

/-- Second planner iteration of the two-obstacle scenario. -/
theorem plan_step_two_obs_second :
    plan_step (0, 0) (3, 0) [(2, 0), (3.2, 0)] 1
        ([(0, 0), (0.8, -1.2), (2, -1.5)], ((2 : ℝ), (-1.5 : ℝ))) (3.2, 0) =
      ([(0, 0), (0.8, -1.2), (2, -1.5), (2, -1.2), (3.2, -1.5)],
        ((3.2 : ℝ), (-1.5 : ℝ))) := by
  have hps := plan_step_axis 3 3.2 1 (by norm_num) [(2, 0), (3.2, 0)]
    ([(0, 0), (0.8, -1.2), (2, -1.5)], ((2 : ℝ), (-1.5 : ℝ)))
  rw [hps]
  norm_num [ensure_safe_point, ensure_step, Real.sign,
    norm2_lt_iff, lt_norm2_iff, norm2_not_lt_of_nonpos, norm2_lt_norm2,
    Prod.mk_sub_mk, Prod.mk_add_mk, Prod.smul_mk, smul_eq_mul, dotp, Prod.ext_iff]

/-- The planned path of the two-obstacle scenario: correcting the final
destination (3,0) against the second obstacle (3.2,0) pushes it to
(2.1,0), back inside the first obstacle's barrier circle. -/
theorem path_two_obs :
    calculate_safe_path (0, 0) (3, 0) [(2, 0), (3.2, 0)] 1 =
      [(0, 0), (0.8, -1.2), (2, -1.5), (2, -1.2), (3.2, -1.5), (2.1, 0)] := by
  simp only [calculate_safe_path, List.foldl_cons, List.foldl_nil]
  rw [plan_step_two_obs_first, plan_step_two_obs_second]
  norm_num [ensure_safe_point, ensure_step, dedup_path, dedup_step,
    norm2_lt_iff, lt_norm2_iff, norm2_lt_norm2, norm2_xaxis, norm2_xaxis_neg,
    Prod.mk_sub_mk, Prod.mk_add_mk, Prod.smul_mk, smul_eq_mul, Prod.ext_iff]

/-! ### C2: the safety invariant of planned waypoints -/

/-- C2 counterexample.  First conjunct block: with start (0.3, 0) inside
the barrier circle of the only obstacle (0, 0), the planned path contains
the start itself — at distance 0.3 < 1 from the obstacle and not
coincident with it — because `calculate_safe_path` never corrects the
start point.  Second block: with two obstacles, correcting the destination
against the second obstacle (3.2, 0) produces the waypoint (2.1, 0), which
is at distance 0.1 < 1 from the first obstacle (2, 0), not coincident with
any obstacle and not the start: sequential correction reintroduces
violations. -/
theorem C2_counterexample :
    (((0.3 : ℝ), (0 : ℝ)) ∈ calculate_safe_path (0.3, 0) (10, 0) [(0, 0)] 1 ∧
      norm2 (((0.3 : ℝ), (0 : ℝ)) - ((0 : ℝ), (0 : ℝ))) < 1 ∧
      ((0.3 : ℝ), (0 : ℝ)) ≠ ((0 : ℝ), (0 : ℝ))) ∧
    (((2.1 : ℝ), (0 : ℝ)) ∈ calculate_safe_path (0, 0) (3, 0) [(2, 0), (3.2, 0)] 1 ∧
      norm2 (((2.1 : ℝ), (0 : ℝ)) - ((2 : ℝ), (0 : ℝ))) < 1 ∧
      ((2.1 : ℝ), (0 : ℝ)) ≠ ((2 : ℝ), (0 : ℝ)) ∧
      ((2.1 : ℝ), (0 : ℝ)) ≠ ((3.2 : ℝ), (0 : ℝ)) ∧
      ((2.1 : ℝ), (0 : ℝ)) ≠ ((0 : ℝ), (0 : ℝ))) := by
  refine ⟨⟨?_, ?_, ?_⟩, ?_, ?_, ?_, ?_, ?_⟩
  · exact List.mem_of_mem_head? (calc_path_head (0.3, 0) (10, 0) [(0, 0)] 1)
  · rw [norm2_lt_iff (by norm_num)]
    norm_num
  · simp [Prod.ext_iff]
    norm_num
  · rw [path_two_obs]
    simp
  · rw [norm2_lt_iff (by norm_num)]
    norm_num
  · simp [Prod.ext_iff]
    norm_num
  · simp [Prod.ext_iff]
    norm_num
  · simp [Prod.ext_iff]
    norm_num

/-- C2 (amended): for a *single* obstacle, every waypoint of the planned
path other than the initial start point (which is never corrected) is at
distance ≥ barrier_distance from the obstacle, except in the degenerate
case where the waypoint coincides exactly with the obstacle.  (With two or
more obstacles even corrected waypoints can violate the invariant, and the
uncorrected start point can violate it in any case — see the
counterexample.) -/
theorem C2_waypoints_safe (s e o : Point) (b : ℝ) :
    ∀ p ∈ (calculate_safe_path s e [o] b).tail,
      b ≤ norm2 (p - o) ∨ p = o := by
  intro p hp
  obtain ⟨t, ht, hm⟩ := calc_path_cons s e o [] b
  rw [ht] at hp
  obtain ⟨q, hq⟩ := hm p hp
  have hq1 : p = ensure_step b q o := hq
  rw [hq1]
  exact ensure_step_safe b q o

/-- C2 witness: at the scenario start (0,0), end (10,0), obstacle (5,0),
barrier 0.5, the waypoint (4.4, −0.6) lies in the tail of the planned path
and satisfies the amended invariant. -/
theorem C2_waypoints_safe_witness :
    ((4.4 : ℝ), (-0.6 : ℝ)) ∈ (calculate_safe_path (0, 0) (10, 0) [(5, 0)] 0.5).tail ∧
    ((0.5 : ℝ) ≤ norm2 (((4.4 : ℝ), (-0.6 : ℝ)) - ((5 : ℝ), (0 : ℝ))) ∨
      ((4.4 : ℝ), (-0.6 : ℝ)) = ((5 : ℝ), (0 : ℝ))) := by
  have hmem : ((4.4 : ℝ), (-0.6 : ℝ)) ∈
      (calculate_safe_path (0, 0) (10, 0) [(5, 0)] 0.5).tail := by
    rw [path_axis_b05]
    simp
  exact ⟨hmem, C2_waypoints_safe (0, 0) (10, 0) (5, 0) 0.5 _ hmem⟩

/-! ### C9: non-finite inputs and the barrier-distance minimum -/

/-- C9 counterexample: the headless engine accepts the barrier distance
−1 ≤ 0 unchanged — the simulator stores −1 and plans its path from −1,
and that path differs from the path planned with the documented minimum
0.5 that `get_barrier_distance` would have substituted, so no substitution
happened before the geometry was computed. -/
theorem C9_counterexample :
    (mkSimulator (0, 0) (10, 0) [(5, 0)] (-1) 0.02).barrier_distance = -1 ∧
    (mkSimulator (0, 0) (10, 0) [(5, 0)] (-1) 0.02).path =
      calculate_safe_path (0, 0) (10, 0) [(5, 0)] (-1) ∧
    get_barrier_distance (-1) = 0.5 ∧
    calculate_safe_path (0, 0) (10, 0) [(5, 0)] (-1) ≠
      calculate_safe_path (0, 0) (10, 0) [(5, 0)] (get_barrier_distance (-1)) := by
  have hb : get_barrier_distance (-1) = 0.5 := by
    rw [get_barrier_distance]
    norm_num
  refine ⟨rfl, rfl, hb, ?_⟩
  rw [hb, path_axis_bneg1, path_axis_b05]
  simp [Prod.ext_iff]
  norm_num

/-- C9 (amended): only the interactive input helper of the animation
(`get_barrier_distance` in moving_car.py) substitutes the documented
minimum 0.5 for a barrier distance below it; the headless testing engine
performs no such substitution and no non-finite rejection — the simulator
stores the supplied barrier distance unchanged and computes its path
geometry directly from it. -/
theorem C9_no_clamping_in_engine :
    (∀ b : ℝ, get_barrier_distance b = max 0.5 b) ∧
    (∀ (s e : Point) (obs : List Point) (b v : ℝ),
      (mkSimulator s e obs b v).barrier_distance = b ∧
      (mkSimulator s e obs b v).path = calculate_safe_path s e obs b) :=
  ⟨fun _ => rfl, fun _ _ _ _ _ => ⟨rfl, rfl⟩⟩

/-! ### C10: degenerate zero-length vectors -/

/-- C10 counterexample: the input point (0.5, 0) coincides exactly with
the second obstacle, yet safe-point correction returns (1.6, 0) ≠
(0.5, 0): the correction against the *first* obstacle has already moved
the point off the second obstacle before the degenerate case is reached,
so coincidence with an obstacle does not imply the input is returned
unmodified. -/
theorem C10_counterexample :
    ensure_safe_point [(0, 0), (0.5, 0)] 1 (0.5, 0) = ((1.6 : ℝ), (0 : ℝ)) ∧
    ((0.5 : ℝ), (0 : ℝ)) ∈ [((0 : ℝ), (0 : ℝ)), ((0.5 : ℝ), (0 : ℝ))] ∧
    ((1.6 : ℝ), (0 : ℝ)) ≠ ((0.5 : ℝ), (0 : ℝ)) := by
  refine ⟨?_, by simp, by simp [Prod.ext_iff]; norm_num⟩
  norm_num [ensure_safe_point, ensure_step,
    norm2_lt_iff, lt_norm2_iff, norm2_xaxis, norm2_xaxis_neg,
    Prod.mk_sub_mk, Prod.mk_add_mk, Prod.smul_mk, smul_eq_mul, Prod.ext_iff]

/-- C10 (amended): with a single obstacle, a point coinciding exactly with
the obstacle is returned unmodified by safe-point correction (the per-
obstacle correction step leaves a coincident point unmoved); and for
*every* input — including start = end and coincident points — the `> 0`
guards prevent any division by a zero norm anywhere in safe-point
correction or path planning, as witnessed by the division-checked planner
never raising. -/
theorem C10_degenerate_no_division :
    (∀ (o : Point) (b : ℝ), ensure_safe_point [o] b o = o) ∧
    (∀ (s e : Point) (obs : List Point) (b : ℝ),
      calculate_safe_pathE s e obs b = .ok (calculate_safe_path s e obs b)) := by
  constructor
  · intro o b
    have h : ensure_safe_point [o] b o = ensure_step b o o := rfl
    rw [h]
    rcases ensure_step_safe b o o with hge | heq
    · by_cases hlt : norm2 (o - o) < b
      · exfalso
        rw [sub_self] at hlt
        have h00 : norm2 ((0 : ℝ × ℝ)) = 0 := by simp [norm2]
        rw [h00] at hlt
        simp only [ensure_step, sub_self, h00, if_pos hlt, gt_iff_lt,
          lt_self_iff_false, if_false] at hge
        rw [add_sub_cancel_left, smul_zero, h00] at hge
        exact absurd (lt_of_lt_of_le hlt hge) (lt_irrefl 0)
      · simp [ensure_step, hlt]
    · exact heq
  · exact calculate_safe_pathE_ok

/-! ### C1: position after a segment transition -/

/-- C1 (code bug witness): on the path `[(0,0),(1,0),(2,0)]`, a step that
pushes progress from 0.5 to 1.1 advances the segment index to 1 and stays
MOVING, but the resulting position is `(0,0)` — the start of the *old*
segment (interpolation of the stale `segment_start`/`segment_end` captured
before the index advanced, at the reset progress 0) — and not `(1,0)`,
the start of the newly entered segment as the claim states. -/
theorem C1_segment_transition_position :
    (step carSegXover).1.current_path_index = 1 ∧
    (step carSegXover).1.has_reached_end = false ∧
    (step carSegXover).1.current_position = ((0 : ℝ), (0 : ℝ)) ∧
    (step carSegXover).1.current_position ≠ ((1 : ℝ), (0 : ℝ)) := by
  have h : (0.5 : ℝ) + 0.6 ≥ 1.0 := by norm_num
  refine ⟨?_, ?_, ?_, ?_⟩ <;> simp [step, carSegXover, h] <;> norm_num [Prod.ext_iff]

/-! ### C4: behaviour at and after REACHED_END -/

/-- C4 counterexample: running `carShort` (speed 0.6) for two steps
transitions to REACHED_END, but the final position is `(0.6, 0)`, not the
path's final point `(1, 0)` — `HeadlessCarSimulator.step` never clamps the
position to the final waypoint. -/
theorem C4_counterexample :
    (step (step carShort).1).1.has_reached_end = true ∧
    (step (step carShort).1).1.current_position = ((0.6 : ℝ), (0 : ℝ)) ∧
    carShort.path.getLast? = some ((1 : ℝ), (0 : ℝ)) ∧
    (step (step carShort).1).1.current_position ≠ ((1 : ℝ), (0 : ℝ)) := by
  have h1 : ¬ ((0 : ℝ) + 0.6 ≥ 1.0) := by norm_num
  have h2 : (0.6 : ℝ) + 0.6 ≥ 1.0 := by norm_num
  have hstep : (step carShort).1 = carShortMid := by
    simp [step, carShort, h1, carShortMid]
    norm_num [Prod.ext_iff]
  rw [hstep]
  refine ⟨?_, ?_, ?_, ?_⟩ <;>
    · simp [step, carShortMid, carShort, h2]
      try norm_num [Prod.ext_iff]

/-- C4 (amended): once `has_reached_end` is set, `step` is a no-op
returning the finished indication, leaving the whole state (segment index,
progress, position) unchanged; and the step that transitions to
REACHED_END leaves the current position at its last MOVING value (which
may differ from the path's final point — the position is never clamped). -/
theorem C4_reached_end_noop (car : HeadlessCarSimulator) :
    (car.has_reached_end = true → step car = (car, false)) ∧
    (car.has_reached_end = false → (step car).1.has_reached_end = true →
      (step car).1.current_position = car.current_position) := by
  constructor
  · intro h
    simp [step, h]
  · intro h h2
    by_cases hidx : car.current_path_index < car.path.length - 1
    · by_cases hprog : car.progress + car.speed ≥ 1.0
      · by_cases hr : car.current_path_index + 1 ≥ car.path.length - 1
        · simp [step, h, hidx, hprog, hr]
        · simp [step, h, hidx, hprog, hr] at h2
      · simp [step, h, hidx, hprog] at h2
    · simp [step, h, hidx]

/-! ### Properties of `step` and the simulation loop -/

/-- When `step` reports the simulation finished, the returned state has
`has_reached_end` set. -/
theorem step_finished (car : HeadlessCarSimulator) :
    (step car).2 = false → (step car).1.has_reached_end = true := by
  by_cases h : car.has_reached_end
  · simp [step, h]
  · simp only [step, Bool.not_eq_true] at h
    simp [step, h]

/-- Invariant of the `while car.step() and frame_count < 1000` loop:
starting at frame `fc` with `fc + n = 1000`, the loop ends with a frame
count between `fc` and 1000, adds exactly one frame to exactly one of the
three counters per iteration, and either exhausts the 1000-frame budget or
ends on a stepped state with `has_reached_end` set. -/
theorem sim_loop_spec (n : ℕ) : ∀ (car : HeadlessCarSimulator)
    (fc s m u : ℕ) (md : EReal), fc + n = 1000 →
    fc ≤ (sim_loop car fc s m u md).frames ∧
    (sim_loop car fc s m u md).frames ≤ 1000 ∧
    (sim_loop car fc s m u md).safe_frames +
      (sim_loop car fc s m u md).mild_unsafe_frames +
      (sim_loop car fc s m u md).unsafe_frames =
      s + m + u + ((sim_loop car fc s m u md).frames - fc) ∧
    ((sim_loop car fc s m u md).frames = 1000 ∨
      (sim_loop car fc s m u md).car.has_reached_end = true) := by
  induction n with
  | zero =>
    intro car fc s m u md hfc
    have hfc' : fc = 1000 := by omega
    rw [sim_loop]
    rw [dif_neg (by omega)]
    simp [hfc']
  | succ n ih =>
    intro car fc s m u md hfc
    have hlt : fc < 1000 := by omega
    by_cases hcont : (step car).2 = true
    · rw [sim_loop]
      rw [dif_pos ⟨hcont, hlt⟩]
      have hnext : (fc + 1) + n = 1000 := by omega
      by_cases hsafe : get_safety_state (step car).1 = SAFE
      · rw [if_pos hsafe]
        have := ih (step car).1 (fc + 1) (s + 1) m u
          (min md (get_distance_to_obstacles (step car).1)) hnext
        refine ⟨by omega, this.2.1, by omega, this.2.2.2⟩
      · rw [if_neg hsafe]
        by_cases hmild : get_safety_state (step car).1 = MILD_UNSAFE
        · rw [if_pos hmild]
          have := ih (step car).1 (fc + 1) s (m + 1) u
            (min md (get_distance_to_obstacles (step car).1)) hnext
          refine ⟨by omega, this.2.1, by omega, this.2.2.2⟩
        · rw [if_neg hmild]
          have := ih (step car).1 (fc + 1) s m (u + 1)
            (min md (get_distance_to_obstacles (step car).1)) hnext
          refine ⟨by omega, this.2.1, by omega, this.2.2.2⟩
    · rw [sim_loop]
      rw [dif_neg (by simp [hcont])]
      have hend := step_finished car (by simpa using hcont)
      refine ⟨le_refl fc, ?_, ?_, Or.inr hend⟩
      · show fc ≤ 1000
        omega
      · show s + m + u = s + m + u + (fc - fc)
        omega

/-! ### C8: the 1000-step cap -/

/-- C8: for every scenario input, `run_single_test` terminates with at
most 1000 frames, the three per-state counters sum to the total frame
count, and a run that stopped short of 1000 frames did so only because the
stepper reached REACHED_END; contrapositively, a run that never reached
the end is cut off with exactly `total_frames = 1000` while keeping its
accumulated counters. -/
theorem C8_run_single_test_capped (test_id : ℕ) (start_point end_point : Point)
    (obstacle_positions : List Point) (barrier_distance speed : ℝ)
    (description : String) :
    (run_single_test test_id start_point end_point obstacle_positions
        barrier_distance speed description).total_frames ≤ 1000 ∧
    (run_single_test test_id start_point end_point obstacle_positions
        barrier_distance speed description).safe_frames +
      (run_single_test test_id start_point end_point obstacle_positions
        barrier_distance speed description).mild_unsafe_frames +
      (run_single_test test_id start_point end_point obstacle_positions
        barrier_distance speed description).unsafe_frames =
      (run_single_test test_id start_point end_point obstacle_positions
        barrier_distance speed description).total_frames ∧
    ((run_single_test test_id start_point end_point obstacle_positions
        barrier_distance speed description).total_frames = 1000 ∨
      (sim_loop (mkSimulator start_point end_point obstacle_positions
        barrier_distance speed) 0 0 0 0 ⊤).car.has_reached_end = true) := by
  have h := sim_loop_spec 1000
    (mkSimulator start_point end_point obstacle_positions barrier_distance speed)
    0 0 0 0 ⊤ (by omega)
  simp only [run_single_test]
  refine ⟨h.2.1, by omega, h.2.2.2⟩

/-! ### C5: behaviour of the batch runner on malformed rows -/

/-- The batch loop stops at the first row that fails to parse: the rows
before it each contribute one result, the error is surfaced, and the rows
after it are never processed. -/
theorem runBatchAux_abort (bad : TestRow) (post : List TestRow)
    (hbad : parseRow bad = .error ()) :
    ∀ (pre : List TestRow) (test_id : ℕ) (acc : List TestResult),
      (∀ r ∈ pre, ∃ sc, parseRow r = .ok sc) →
      ∃ res, runBatchAux test_id acc (pre ++ bad :: post) = (acc ++ res, some ()) ∧
        res.length = pre.length := by
  intro pre
  induction pre with
  | nil =>
    intro test_id acc _
    refine ⟨[], ?_, rfl⟩
    simp [runBatchAux, hbad]
  | cons row pre ih =>
    intro test_id acc hpre
    obtain ⟨sc, hsc⟩ := hpre row (List.mem_cons_self row pre)
    obtain ⟨res, hres, hlen⟩ := ih (test_id + 1)
      (acc ++ [run_single_test test_id sc.start_point sc.end_point [sc.obstacle]
        sc.barrier_distance sc.speed sc.description])
      (fun r hr => hpre r (List.mem_cons_of_mem row hr))
    refine ⟨run_single_test test_id sc.start_point sc.end_point [sc.obstacle]
      sc.barrier_distance sc.speed sc.description :: res, ?_, by simp [hlen]⟩
    rw [List.cons_append, runBatchAux, hsc]
    simp [hres]

/-- C5 counterexample: in a batch whose first row is malformed and whose
second row is fully valid, the runner surfaces the parse error but
produces zero results — the valid remaining scenario is never run, so the
batch does not continue past the bad row. -/
theorem C5_counterexample :
    (run_tests_from_csv [badRow, goodRow]).1.length = 0 ∧
    (run_tests_from_csv [badRow, goodRow]).2 = some () ∧
    (∃ sc, parseRow goodRow = .ok sc) := by
  refine ⟨?_, ?_, ?_⟩
  · rfl
  · rfl
  · exact ⟨_, rfl⟩

/-- C5 (amended): a malformed (non-numeric) scenario row makes the batch
runner surface a parsing error and abort the *remainder of the batch*:
exactly the scenarios strictly before the first malformed row are
processed, and none after it. -/
theorem C5_batch_abort (pre : List TestRow) (bad : TestRow) (post : List TestRow)
    (hpre : ∀ r ∈ pre, ∃ sc, parseRow r = .ok sc)
    (hbad : parseRow bad = .error ()) :
    ∃ res, run_tests_from_csv (pre ++ bad :: post) = (res, some ()) ∧
      res.length = pre.length := by
  obtain ⟨res, hres, hlen⟩ := runBatchAux_abort bad post hbad pre 1 [] hpre
  exact ⟨res, by simpa [run_tests_from_csv] using hres, hlen⟩

/-- C5 witness: the amended claim at the concrete batch
`[badRow, goodRow]` (no valid prefix, one ignored suffix row). -/
theorem C5_batch_abort_witness :
    ∃ res, run_tests_from_csv ([] ++ badRow :: [goodRow]) = (res, some ()) ∧
      res.length = ([] : List TestRow).length :=
  C5_batch_abort [] badRow [goodRow] (by simp) rfl

/-! ### Characterisation of Python `min(..., key=...)` -/

/-- A fold by `min` never exceeds its initial value. -/
theorem foldl_min_le {κ : Type} [LinearOrder κ] :
    ∀ (l : List κ) (a : κ), l.foldl min a ≤ a := by
  intro l
  induction l with
  | nil => intro a; exact le_refl a
  | cons b l ih =>
    intro a
    calc (b :: l).foldl min a = l.foldl min (min a b) := by rw [List.foldl_cons]
    _ ≤ min a b := ih (min a b)
    _ ≤ a := min_le_left a b

/-- `find?` with a decidable propositional predicate: head hit. -/
theorem find?_cons_decide_pos {α : Type} (q : α → Prop) [DecidablePred q]
    (a : α) (l : List α) (h : q a) :
    (a :: l).find? (fun r => decide (q r)) = some a :=
  List.find?_cons_of_pos l (by simpa using h)

/-- `find?` with a decidable propositional predicate: head miss. -/
theorem find?_cons_decide_neg {α : Type} (q : α → Prop) [DecidablePred q]
    (a : α) (l : List α) (h : ¬ q a) :
    (a :: l).find? (fun r => decide (q r)) = l.find? (fun r => decide (q r)) :=
  List.find?_cons_of_neg l (by simpa using h)

/-- The key of `pyMinKey` is the minimum of all the keys. -/
theorem pyMinKey_key {α κ : Type} [LinearOrder κ] (key : α → κ) :
    ∀ (xs : List α) (x : α),
      key (pyMinKey key x xs) = (xs.map key).foldl min (key x) := by
  intro xs
  induction xs with
  | nil => intro x; rfl
  | cons y ys ih =>
    intro x
    by_cases hxy : key y < key x
    · have hz : pyMinKey key x (y :: ys) = pyMinKey key y ys := by
        simp [pyMinKey, hxy]
      rw [hz, ih y, List.map_cons, List.foldl_cons, min_eq_right hxy.le]
    · have hz : pyMinKey key x (y :: ys) = pyMinKey key x ys := by
        simp [pyMinKey, hxy]
      rw [hz, ih x, List.map_cons, List.foldl_cons, min_eq_left (not_lt.mp hxy)]

/-- `pyMinKey` returns the first element whose key attains the minimum,
exactly as Python's stable `min(iterable, key=...)`. -/
theorem pyMinKey_find {α κ : Type} [LinearOrder κ] (key : α → κ) :
    ∀ (xs : List α) (x : α),
      (x :: xs).find? (fun r => key r = (xs.map key).foldl min (key x)) =
        some (pyMinKey key x xs) := by
  intro xs
  induction xs with
  | nil =>
    intro x
    simp [pyMinKey]
  | cons y ys ih =>
    intro x
    by_cases hxy : key y < key x
    · have hm : ((y :: ys).map key).foldl min (key x) =
          (ys.map key).foldl min (key y) := by
        rw [List.map_cons, List.foldl_cons, min_eq_right hxy.le]
      have hz : pyMinKey key x (y :: ys) = pyMinKey key y ys := by
        simp [pyMinKey, hxy]
      have hmlt : (ys.map key).foldl min (key y) < key x :=
        lt_of_le_of_lt (foldl_min_le _ _) hxy
      rw [hm, hz]
      rw [find?_cons_decide_neg
        (fun r => key r = (ys.map key).foldl min (key y)) x (y :: ys)
        (ne_of_gt hmlt)]
      exact ih y
    · have hm : ((y :: ys).map key).foldl min (key x) =
          (ys.map key).foldl min (key x) := by
        rw [List.map_cons, List.foldl_cons, min_eq_left (not_lt.mp hxy)]
      have hz : pyMinKey key x (y :: ys) = pyMinKey key x ys := by
        simp [pyMinKey, hxy]
      rw [hm, hz]
      by_cases hx : key x = (ys.map key).foldl min (key x)
      · have hpy : pyMinKey key x ys = x := by
          have h1 := ih x
          rw [find?_cons_decide_pos
            (fun r => key r = (ys.map key).foldl min (key x)) x ys hx] at h1
          exact (Option.some_injective _ h1).symm
        rw [find?_cons_decide_pos
          (fun r => key r = (ys.map key).foldl min (key x)) x (y :: ys) hx, hpy]
      · have hmlt : (ys.map key).foldl min (key x) < key x :=
          lt_of_le_of_ne (foldl_min_le _ _) fun h => hx h.symm
        have hylt : (ys.map key).foldl min (key x) < key y :=
          lt_of_lt_of_le hmlt (not_lt.mp hxy)
        have hfind := ih x
        rw [find?_cons_decide_neg
          (fun r => key r = (ys.map key).foldl min (key x)) x ys
          (ne_of_gt hmlt)] at hfind
        rw [find?_cons_decide_neg
          (fun r => key r = (ys.map key).foldl min (key x)) x (y :: ys)
          (ne_of_gt hmlt)]
        rw [find?_cons_decide_neg
          (fun r => key r = (ys.map key).foldl min (key x)) y ys
          (ne_of_gt hylt)]
        exact hfind

/-! ### C7: the optimal-barrier computation -/

/-- C7: for every nonempty group of test results, the barrier distance
reported by the code's optimal-barrier computation agrees with the spec
wording — the minimum barrier distance of the SAFE members, or, when no
member is SAFE, the barrier distance of the first member attaining the
fewest unsafe frames; in particular the group
[SAFE(barrier 1.0), SAFE(barrier 2.0), UNSAFE(barrier 0.5)] yields 1.0. -/
theorem C7_group_optimal_spec :
    (∀ (x : TestResult) (xs : List TestResult),
      (group_optimal (x :: xs)).map OptimalReport.barrier =
        spec_optimal_barrier (x :: xs)) ∧
    group_optimal [resSafeB1, resSafeB2, resUnsafeB05] =
      some (.optimal (1.0 : ℝ)) := by
  constructor
  · intro x xs
    cases hsafe : (x :: xs).filter (fun r => decide (safety_status r = SAFE)) with
    | nil =>
      simp only [group_optimal, spec_optimal_barrier, hsafe, list_min_nat,
        Option.map_some]
      have := pyMinKey_find (fun r : TestResult => r.unsafe_frames) xs x
      simp only [this]
      rfl
    | cons s ss =>
      simp only [group_optimal, spec_optimal_barrier, hsafe, list_min]
      rw [← pyMinKey_key (fun r : TestResult => r.barrier_distance) ss s]
      rfl
  · have h21 : ¬ ((2.0 : ℝ) < 1.0) := by norm_num
    simp [group_optimal, safety_status, resSafeB1, resSafeB2, resUnsafeB05,
      SAFE, MILD_UNSAFE, UNSAFE, pyMinKey, h21]

/-! ### C6: the aggregator on an empty result list -/

/-- C6 (code bug witness): on an empty result list the aggregate summary
does not complete: the overall-statistics block divides the SAFE count by
`total_tests = 0` (testing.py line 424, `total_safe/total_tests*100`),
which in Python raises `ZeroDivisionError`; there is no no-data guard in
`generate_test_summary`. -/
theorem C6_empty_summary_division_error :
    generate_test_summary [] = .error () := by
  simp only [generate_test_summary, group_by_description, checkedDiv, List.foldl_nil,
    List.length_nil, List.filter_nil, Nat.cast_zero, if_pos rfl]
  rfl

/-! ### C3: safety classification -/

/-- C3 counterexample: at `carNear` (distance 0.3 to the obstacle, barrier
distance 0.2) the classification is UNSAFE even though the distance is at
least the barrier distance, so SAFE is *not* equivalent to
`d ≥ barrier_distance`: the physical-radius test `d < 0.5` takes
precedence when the barrier distance is below 0.5. -/
theorem C3_counterexample :
    ¬ (get_safety_state carNear = SAFE ↔
        ((carNear.barrier_distance : EReal) ≤ get_distance_to_obstacles carNear)) := by
  have hn : norm2 ((0.3 : ℝ), (0 : ℝ)) = 0.3 := norm2_eq (by norm_num) _ (by norm_num)
  have hd : get_distance_to_obstacles carNear = (((0.3 : ℝ)) : EReal) := by
    simp [get_distance_to_obstacles, carNear, Prod.mk_sub_mk, sub_zero, hn]
  have hs : get_safety_state carNear = UNSAFE := by
    rw [get_safety_state, hd]
    rw [if_pos (by rw [EReal.coe_lt_coe_iff]; norm_num)]
  rw [hs, hd, carNear]
  simp [ UNSAFE, SAFE, EReal.coe_le_coe_iff]
  norm_num

/-- C3 (amended): the classification is a pure function of the minimum
distance d to the obstacles: UNSAFE iff d < 0.5; MILD_UNSAFE iff
0.5 ≤ d < barrier_distance; SAFE iff d ≥ 0.5 *and* d ≥ barrier_distance
(not merely d ≥ barrier_distance); with an empty obstacle list the
distance is infinite and the classification is SAFE. -/
theorem C3_classification (car : HeadlessCarSimulator) :
    (get_safety_state car = UNSAFE ↔
      get_distance_to_obstacles car < ((0.5 : ℝ) : EReal)) ∧
    (get_safety_state car = MILD_UNSAFE ↔
      (((0.5 : ℝ) : EReal) ≤ get_distance_to_obstacles car ∧
        get_distance_to_obstacles car < (car.barrier_distance : EReal))) ∧
    (get_safety_state car = SAFE ↔
      (((0.5 : ℝ) : EReal) ≤ get_distance_to_obstacles car ∧
        (car.barrier_distance : EReal) ≤ get_distance_to_obstacles car)) ∧
    (car.obstacle_positions = [] →
      get_distance_to_obstacles car = ⊤ ∧ get_safety_state car = SAFE) := by
  have hempty : car.obstacle_positions = [] → get_distance_to_obstacles car = ⊤ := by
    intro h
    rw [get_distance_to_obstacles, h]
  by_cases h1 : get_distance_to_obstacles car < ((0.5 : ℝ) : EReal)
  · have h1' := not_le.mpr h1
    refine ⟨?_, ?_, ?_, ?_⟩
    · simp [get_safety_state, h1]
    · simp [get_safety_state, h1, h1', UNSAFE, MILD_UNSAFE]
    · simp [get_safety_state, h1, h1', UNSAFE, SAFE]
    · intro h
      rw [hempty h] at h1
      exact absurd h1 (not_top_lt)
  · by_cases h2 : get_distance_to_obstacles car < (car.barrier_distance : EReal)
    · refine ⟨?_, ?_, ?_, ?_⟩
      · simp [get_safety_state, h1, h2, UNSAFE, MILD_UNSAFE]
      · simp [get_safety_state, h1, h2, MILD_UNSAFE, not_lt.mp h1]
      · simp [get_safety_state, h1, h2, MILD_UNSAFE, SAFE, not_le.mpr h2]
      · intro h
        rw [hempty h] at h2
        exact absurd h2 (not_top_lt)
    · refine ⟨?_, ?_, ?_, ?_⟩
      · simp [get_safety_state, h1, h2, UNSAFE, SAFE]
      · simp [get_safety_state, h1, h2, MILD_UNSAFE, SAFE, h2]
      · simp [get_safety_state, h1, h2, SAFE, not_lt.mp h1, not_lt.mp h2]
      · intro h
        exact ⟨hempty h, by simp [get_safety_state, h1, h2, SAFE]⟩

/-- C3 witness: at the obstacle-free state `carNoObs` the distance is
infinite and the classification is SAFE. -/
theorem C3_classification_witness :
    get_distance_to_obstacles carNoObs = ⊤ ∧ get_safety_state carNoObs = SAFE :=
  (C3_classification carNoObs).2.2.2 rfl

/-- C4 witness: the no-op clause at the finished state `carDone`, and the
position-retention clause at the transitioning state `carShortMid`. -/
theorem C4_reached_end_noop_witness :
    step carDone = (carDone, false) ∧
    (step carShortMid).1.current_position = carShortMid.current_position := by
  constructor
  · exact (C4_reached_end_noop carDone).1 rfl
  · refine (C4_reached_end_noop carShortMid).2 rfl ?_
    have h2 : (0.6 : ℝ) + 0.6 ≥ 1.0 := by norm_num
    simp [step, carShortMid, carShort, h2]

end BarrierSim
